import Mathlib

/-!
Shallow embedding of the magic-wormhole receiving side
(`src/wormhole/cli/cmd_receive.py`).

The receive session is modelled as a pure function from a configuration
(`Args`, holding the parsed command-line options together with oracles for
the external collaborators: `fsExists` for `os.path.exists`, `answer` for
the interactive consent prompt, `received` for the byte count returned by
`record_pipe.writeToFile`) and the list of incoming wormhole-channel
messages, to a pair of an event trace and a session result.  The trace
records every externally observable action of the session: console output,
messages sent over the wormhole channel, filesystem operations, bulk-pipe
records, and channel closes.  Exceptions of the Python source become the
`Except` layer of a `Step`: `RespondError`, `TransferError` and a failed
`assert` are the three error shapes that can arise inside `parse_offer`.
-/

namespace CmdReceive

/-- The characters of the final path component: everything after the last
separator. -/
def lastComponent (cs : List Char) : List Char :=
  ((cs.reverse.takeWhile (fun c => c ≠ '/')).reverse)

/-- `os.path.basename`: the final path component (empty when the name ends
in a separator). -/
def basename (p : String) : String :=
  String.mk (lastComponent p.data)

/-- Python `s.lower()` (over the characters of `s`). -/
def lower (s : String) : String :=
  String.mk (s.data.map Char.toLower)

/-- Python `s.startswith(pre)` (over the characters of `s`). -/
def startswith (s pre : String) : Bool :=
  pre.data.isPrefixOf s.data

/-- Python `s.endswith(suf)` (over the characters of `s`). -/
def endswith (s suf : String) : Bool :=
  suf.data.isSuffixOf s.data

/-- `os.path.join a b`: `b` when `b` is absolute, otherwise `a` and `b`
joined with a single separator. -/
def pathJoin (a b : String) : String :=
  if startswith b ("/") then b
  else if a = "" then b
  else if endswith a ("/") then a ++ b
  else a ++ "/" ++ b

/-- Messages the receiver sends over the wormhole channel (`_send_data`). -/
inductive WMsg
  | answerMsgAck                -- {"answer": {"message_ack": "ok"}}
  | answerFileAck               -- {"answer": {"file_ack": "ok"}}
  | errorMsg (reason : String)  -- {"error": reason}
  | transitHints                -- {"transit": receiver_hints}
  deriving DecidableEq, Repr

/-- The open destination object handed to the bulk transfer: the temporary
sibling file in the file case (`open(tmp_destname, "wb")`) or the spooled
temporary store in the directory case (`tempfile.SpooledTemporaryFile()`). -/
inductive FTarget
  | tmpFile (path : String)
  | spool
  deriving DecidableEq, Repr

/-- Externally observable actions of the session, in order. -/
inductive Event
  | note (s : String)              -- self.msg(...): console output
  | sent (m : WMsg)                -- _send_data over the wormhole channel
  | openTmp (path : String)        -- open(tmp_destname, "wb")
  | openSpool                      -- tempfile.SpooledTemporaryFile()
  | wrote (f : FTarget) (n : Nat)  -- record_pipe.writeToFile wrote n bytes into f
  | rename (src dst : String)      -- os.rename(src, dst)
  | extract (dst : String)         -- ZipFile.extractall(path=dst)
  | sendRecord (r : String)        -- record_pipe.send_record(r)
  | closePipe                      -- record_pipe.close()
  | transitConnect                 -- transit_receiver.connect()
  | closeWormhole                  -- w.close
  deriving DecidableEq, Repr

/-- The exceptions that can escape a stage of the pipeline:
`RespondError(reason)`, `TransferError(reason)`, or a failed `assert`
(the `received == xfersize` invariant in `_transfer_data`). -/
inductive PErr
  | respond (reason : String)
  | transfer (reason : String)
  | fatal
  deriving DecidableEq, Repr

/-- Result of the whole session (`_go`): success (`returnValue(None)`),
a `TransferError` surfaced to the caller, or a fatal invariant violation. -/
inductive SessionResult
  | success
  | transferError (reason : String)
  | fatal
  deriving DecidableEq, Repr

/-- The decoded `them_d["offer"]` payload. -/
inductive Offer
  | text (body : String)
  | file (filename : String) (filesize : Nat)
  | dir (mode dirname : String) (zipsize numfiles numbytes : Nat)
  | unknown
  deriving DecidableEq, Repr

/-- One incoming wormhole-channel message as classified by the negotiation
loop in `_go` / `_get_data`: a transit-hints message, an offer, a peer
error (`them_d["error"]`, raised by `_get_data` as `TransferError`), or a
message with an unrecognized top-level key.  The incoming stream is a
`List InMsg`; its end models the peer closing the channel
(`WormholeClosedError` from `w.get()`). -/
inductive InMsg
  | transit
  | offer (o : Offer)
  | errorIn (reason : String)
  | other
  deriving DecidableEq, Repr

/-- Configuration and external oracles of one session: the relevant
command-line options (`args.output_file`, `args.cwd`, `args.accept_file`),
the filesystem-existence oracle (`os.path.exists`), the user's answer to
the consent prompt (`six.moves.input`), and the byte count the bulk pipe
reports from `writeToFile`. -/
structure Args where
  output_file : Option String
  cwd : String
  accept_file : Bool
  answer : String
  fsExists : String → Bool
  received : Nat

/-- One stage of the pipeline: the events it emitted paired with its
outcome. -/
def Step (α : Type) : Type := List Event × Except PErr α

/-- Sequence two stages; an exception in the first aborts the second,
keeping the events emitted so far (Python exception propagation). -/
def seqE {α β : Type} (x : Step α) (f : α → Step β) : Step β :=
  match x with
  | (evs, Except.error e) => (evs, Except.error e)
  | (evs, Except.ok v) => (evs ++ (f v).1, (f v).2)

/-- Lift a stage that raises `RespondError` into the common error type. -/
def respondE {α : Type} (x : List Event × Except String α) : Step α :=
  match x with
  | (evs, Except.error r) => (evs, Except.error (PErr.respond r))
  | (evs, Except.ok v) => (evs, Except.ok v)

/-- `decide_destname(mode, destname)`: strip the proposed name to its
basename, apply the `--output-file` override when present, join under the
working directory, and refuse a pre-existing path with
`RespondError("<mode> already exists")`. -/
def decide_destname (a : Args) (mode destname : String) :
    List Event × Except String String :=
  let destname := basename destname
  let destname :=
    match a.output_file with
    | some o => o        -- override
    | none => destname
  let abs_destname := pathJoin a.cwd destname
  if a.fsExists abs_destname then
    ([Event.note ("Error: refusing to overwrite existing " ++ mode ++ " " ++ destname)],
     Except.error (mode ++ " already exists"))
  else
    ([], Except.ok abs_destname)

/-- `ask_permission()`: with `--accept-file` consent is granted without
prompting; otherwise the first prompt answer decides: an answer whose
lowercasing starts with "y" grants, anything else prints a rejection and
raises `RespondError("transfer rejected")` (the source loop always leaves
its body on the first answer, by `break` or by `raise`). -/
def ask_permission (a : Args) : Step Unit :=
  if a.accept_file then ([], Except.ok ())
  else if startswith (lower a.answer) ("y") then ([], Except.ok ())
  else ([Event.note ("transfer rejected")],
        Except.error (PErr.respond ("transfer rejected")))

/-- `handle_file(them_d)`: resolve the destination, announce it, ask
consent, then open the temporary sibling `abs_destname + ".tmp"`.
Returns `(tmp_destname, abs_destname, xfersize)`. -/
def handle_file (a : Args) (filename : String) (filesize : Nat) :
    Step (String × String × Nat) :=
  seqE (respondE (decide_destname a ("file") filename)) fun abs_destname =>
  seqE ([Event.note ("Receiving file (" ++ toString filesize ++ " bytes) into: "
          ++ basename abs_destname)], Except.ok ()) fun _ =>
  seqE (ask_permission a) fun _ =>
    let tmp_destname := abs_destname ++ ".tmp"
    ([Event.openTmp tmp_destname], Except.ok (tmp_destname, abs_destname, filesize))

/-- `handle_directory(them_d)`: reject any mode other than
`zipfile/deflated`, resolve the destination, announce it, ask consent,
then open a spooled temporary store.  Returns `(abs_destname, xfersize)`. -/
def handle_directory (a : Args) (mode dirname : String)
    (zipsize numfiles numbytes : Nat) : Step (String × Nat) :=
  if mode ≠ "zipfile/deflated" then
    ([Event.note ("Error: unknown directory-transfer mode " ++ mode)],
     Except.error (PErr.respond ("unknown mode")))
  else
  seqE (respondE (decide_destname a ("directory") dirname)) fun abs_destname =>
  seqE ([Event.note ("Receiving directory (" ++ toString zipsize ++ " bytes) into: "
          ++ basename abs_destname ++ "/"),
        Event.note (toString numfiles ++ " files, " ++ toString numbytes
          ++ " bytes (uncompressed)")], Except.ok ()) fun _ =>
  seqE (ask_permission a) fun _ =>
    ([Event.openSpool], Except.ok (abs_destname, zipsize))

/-- `_transfer_data(record_pipe, f)`: one streaming `writeToFile` of the
advertised size; a short count raises
`TransferError("Connection dropped before full file received")` after
printing both counts, and `assert received == self.xfersize` makes an
over-long count a fatal invariant violation. -/
def transfer_data (a : Args) (f : FTarget) (xfersize : Nat) : Step Unit :=
  let received := a.received
  let evs : List Event :=
    [Event.note ("Receiving.."), Event.wrote f received]
  if received < xfersize then
    (evs ++ [Event.note ("Connection dropped before full file received"),
             Event.note ("got " ++ toString received ++ " bytes, wanted "
               ++ toString xfersize)],
     Except.error (PErr.transfer ("Connection dropped before full file received")))
  else if received = xfersize then
    (evs, Except.ok ())
  else
    (evs, Except.error PErr.fatal)

/-- `write_file(f)`: close the temporary file and atomically rename it
onto the final destination. -/
def write_file (tmp_name abs_destname : String) : List Event :=
  [Event.rename tmp_name abs_destname,
   Event.note ("Received file written to " ++ basename abs_destname)]

/-- `write_directory(f)`: extract the spooled archive into the
destination directory (`ZipFile.extractall(path=abs_destname)`). -/
def write_directory (abs_destname : String) : List Event :=
  [Event.note ("Unpacking zipfile.."),
   Event.extract abs_destname,
   Event.note ("Received files written to " ++ basename abs_destname ++ "/")]

/-- `close_transit(record_pipe)`: send the fixed acknowledgement record
and close the bulk pipe. -/
def close_transit : List Event :=
  [Event.sendRecord ("ok\n"), Event.closePipe]

/-- `parse_offer(them_d, w)`: dispatch on the offer shape.  Text is
printed and acknowledged; file and directory offers run
resolve → consent → `{"answer":{"file_ack":"ok"}}` → transit connect →
transfer → materialize → completion record; an unknown shape raises
`RespondError("unknown offer type")`. -/
def parse_offer (a : Args) (o : Offer) : Step Unit :=
  match o with
  | Offer.text body =>
    ([Event.note body, Event.sent WMsg.answerMsgAck], Except.ok ())
  | Offer.file filename filesize =>
    seqE (handle_file a filename filesize) fun fd =>
    seqE ([Event.sent WMsg.answerFileAck, Event.transitConnect], Except.ok ()) fun _ =>
    seqE (transfer_data a (FTarget.tmpFile fd.1) fd.2.2) fun _ =>
      (write_file fd.1 fd.2.1 ++ close_transit, Except.ok ())
  | Offer.dir mode dirname zipsize numfiles numbytes =>
    seqE (handle_directory a mode dirname zipsize numfiles numbytes) fun dd =>
    seqE ([Event.sent WMsg.answerFileAck, Event.transitConnect], Except.ok ()) fun _ =>
    seqE (transfer_data a FTarget.spool dd.2) fun _ =>
      (write_directory dd.1 ++ close_transit, Except.ok ())
  | Offer.unknown =>
    ([Event.note ("I dont know what they are offering"),
      Event.note ("Offer details: ...")],
     Except.error (PErr.respond ("unknown offer type")))

/-- The negotiation loop of `_go`: consume incoming messages in order.
A `transit` message builds the transit receiver and replies with this
side's hints (first occurrence only), then loops; an `offer` is accepted
only while `want_offer` holds and is dispatched through `parse_offer`,
with `RespondError` turned into a peer-visible `{"error": ...}` followed
by a `TransferError` of the same reason; a peer `error` message and an
unrecognized key fail the session; exhaustion of the stream is
`WormholeClosedError`, benign only when `done` holds. -/
def goLoop (a : Args) (msgs : List InMsg) (want_offer done hasTransit : Bool) :
    List Event × SessionResult :=
  match msgs with
  | [] =>
    ([], if done then SessionResult.success
         else SessionResult.transferError ("unexpected close"))
  | m :: rest =>
    match m with
    | InMsg.transit =>
      if hasTransit then goLoop a rest want_offer done hasTransit
      else
        (Event.sent WMsg.transitHints :: (goLoop a rest want_offer done true).1,
         (goLoop a rest want_offer done true).2)
    | InMsg.offer o =>
      if want_offer then
        match parse_offer a o with
        | (tr, Except.ok _) => (tr, SessionResult.success)
        | (tr, Except.error (PErr.respond r)) =>
          (tr ++ [Event.sent (WMsg.errorMsg r)], SessionResult.transferError r)
        | (tr, Except.error (PErr.transfer r)) => (tr, SessionResult.transferError r)
        | (tr, Except.error PErr.fatal) => (tr, SessionResult.fatal)
      else ([], SessionResult.transferError ("duplicate offer"))
    | InMsg.errorIn r => ([], SessionResult.transferError r)
    | InMsg.other =>
      ([Event.note ("unrecognized message")],
       SessionResult.transferError ("expected offer, got none"))

/-- `go()`: run `_go` and close the wormhole channel on every exit path
(`d.addBoth(w.close)`).  Modelled from the spec: the wormhole channel is an
external collaborator whose `close` is outside this source file; per the
spec contract the close is performed exactly once at session end and
passes the pipeline's outcome through unchanged. -/
def go (a : Args) (msgs : List InMsg) : List Event × SessionResult :=
  ((goLoop a msgs true false false).1 ++ [Event.closeWormhole],
   (goLoop a msgs true false false).2)

/-- The destination name `decide_destname` resolves: the override when
present, else the basename of the proposed name. -/
def destChoice (a : Args) (destname : String) : String :=
  match a.output_file with
  | some o => o
  | none => basename destname

/-- The absolute destination path `decide_destname` resolves. -/
def resolvedDest (a : Args) (destname : String) : String :=
  pathJoin a.cwd (destChoice a destname)

/-- Consent is granted: auto-accept, or an affirmative prompt answer. -/
def consentOK (a : Args) : Bool :=
  a.accept_file || startswith (lower a.answer) ("y")

/-- Modelled from the spec: the directory case delegates extraction to the
zip library (`ZipFile.extractall`), whose code is not part of this source
file; the spec requires every entry path to be sanitized so extraction
cannot escape the destination root.  An entry path, viewed as its list of
components, is sanitized by dropping empty, current-directory and
parent-directory components. -/
def sanitizeEntry (entry : List String) : List String :=
  entry.filter (fun c => c ≠ "" && c ≠ "." && c != "..")

/-- Modelled from the spec: the path at which a sanitized archive entry is
materialized — the destination root extended by the sanitized entry. -/
def extractTarget (root entry : List String) : List String :=
  root ++ sanitizeEntry entry

/-- Does this event bring the path `p` into existence?  `os.rename` onto
`p`, extraction into `p`, or opening `p` for writing. -/
def createsAt (p : String) : Event → Bool
  | Event.rename _ dst => dst = p
  | Event.extract dst => dst = p
  | Event.openTmp q => q = p
  | _ => false

/-- Is this event a bulk-pipe application record? -/
def isRecord : Event → Bool
  | Event.sendRecord _ => true
  | _ => false

/-- Is this event a filesystem write of any kind? -/
def fsWrite : Event → Bool
  | Event.openTmp _ => true
  | Event.openSpool => true
  | Event.wrote _ _ => true
  | Event.rename _ _ => true
  | Event.extract _ => true
  | _ => false

/-- The byte-count law for one file offer of size `n` and one directory
offer of archive size `zs`: the session succeeds exactly when the bulk
write returned the advertised size, and a short count yields the
connection-dropped failure, reports both counts, and performs neither a
rename nor an extraction. -/
def ByteCountLaw (a : Args) (fn dn : String) (n zs nf nb : Nat) : Prop :=
  ((go a [InMsg.offer (Offer.file fn n)]).2 = SessionResult.success
      ↔ a.received = n) ∧
  (a.received < n →
    (go a [InMsg.offer (Offer.file fn n)]).2 =
      SessionResult.transferError ("Connection dropped before full file received") ∧
    Event.note ("got " ++ toString a.received ++ " bytes, wanted " ++ toString n)
      ∈ (go a [InMsg.offer (Offer.file fn n)]).1 ∧
    (∀ src dst, Event.rename src dst ∉ (go a [InMsg.offer (Offer.file fn n)]).1) ∧
    (∀ d, Event.extract d ∉ (go a [InMsg.offer (Offer.file fn n)]).1)) ∧
  ((go a [InMsg.offer (Offer.dir ("zipfile/deflated") dn zs nf nb)]).2
      = SessionResult.success ↔ a.received = zs) ∧
  (a.received < zs →
    (go a [InMsg.offer (Offer.dir ("zipfile/deflated") dn zs nf nb)]).2 =
      SessionResult.transferError ("Connection dropped before full file received") ∧
    Event.note ("got " ++ toString a.received ++ " bytes, wanted " ++ toString zs)
      ∈ (go a [InMsg.offer (Offer.dir ("zipfile/deflated") dn zs nf nb)]).1 ∧
    (∀ src dst, Event.rename src dst
      ∉ (go a [InMsg.offer (Offer.dir ("zipfile/deflated") dn zs nf nb)]).1) ∧
    (∀ d, Event.extract d
      ∉ (go a [InMsg.offer (Offer.dir ("zipfile/deflated") dn zs nf nb)]).1))

/-- Safe materialization for one file offer: all writes during transfer go
to the temporary sibling of the resolved destination, the rename onto the
final name happens exactly on the success path, and on any failure no
event creates the destination path. -/
def FileMaterialization (a : Args) (fn : String) (n : Nat) : Prop :=
  (∀ p, Event.openTmp p ∈ (go a [InMsg.offer (Offer.file fn n)]).1 →
     p = resolvedDest a fn ++ ".tmp") ∧
  (∀ t m, Event.wrote t m ∈ (go a [InMsg.offer (Offer.file fn n)]).1 →
     t = FTarget.tmpFile (resolvedDest a fn ++ ".tmp")) ∧
  ((go a [InMsg.offer (Offer.file fn n)]).2 = SessionResult.success ↔
     Event.rename (resolvedDest a fn ++ ".tmp") (resolvedDest a fn)
       ∈ (go a [InMsg.offer (Offer.file fn n)]).1) ∧
  ((go a [InMsg.offer (Offer.file fn n)]).2 ≠ SessionResult.success →
     ∀ e ∈ (go a [InMsg.offer (Offer.file fn n)]).1,
       createsAt (resolvedDest a fn) e = false) ∧
  ((go a [InMsg.offer (Offer.file fn n)]).2 ≠ SessionResult.success →
     (∀ src dst, Event.rename src dst ∉ (go a [InMsg.offer (Offer.file fn n)]).1) ∧
     (∀ d, Event.extract d ∉ (go a [InMsg.offer (Offer.file fn n)]).1))

/-- Safe materialization for one directory offer (any advertised mode):
extraction into the resolved destination happens exactly on the success
path, and on any failure no event creates the destination path and no
rename or extraction occurs. -/
def DirMaterialization (a : Args) (dm dn : String) (zs nf nb : Nat) : Prop :=
  ((go a [InMsg.offer (Offer.dir dm dn zs nf nb)]).2 = SessionResult.success ↔
     Event.extract (resolvedDest a dn)
       ∈ (go a [InMsg.offer (Offer.dir dm dn zs nf nb)]).1) ∧
  ((go a [InMsg.offer (Offer.dir dm dn zs nf nb)]).2 ≠ SessionResult.success →
     ∀ e ∈ (go a [InMsg.offer (Offer.dir dm dn zs nf nb)]).1,
       createsAt (resolvedDest a dn) e = false) ∧
  ((go a [InMsg.offer (Offer.dir dm dn zs nf nb)]).2 ≠ SessionResult.success →
     (∀ src dst, Event.rename src dst ∉ (go a [InMsg.offer (Offer.dir dm dn zs nf nb)]).1) ∧
     (∀ d, Event.extract d ∉ (go a [InMsg.offer (Offer.dir dm dn zs nf nb)]).1))

/-- Destination resolution without an override, against a pre-existing
path: the proposed name is stripped to its basename and joined under the
working directory, the session fails with the "already exists"
responder-error (visible to the peer), and no filesystem write happens. -/
def NoOverwriteResolution (a : Args) (mode dn : String) (n : Nat) : Prop :=
  (∀ x y : String, basename (x ++ "/" ++ y) = basename y) ∧
  decide_destname a mode dn =
    ([Event.note ("Error: refusing to overwrite existing " ++ mode ++ " "
        ++ basename dn)],
     Except.error (mode ++ " already exists")) ∧
  (go a [InMsg.offer (Offer.file dn n)]).2 =
    SessionResult.transferError ("file already exists") ∧
  Event.sent (WMsg.errorMsg ("file already exists"))
    ∈ (go a [InMsg.offer (Offer.file dn n)]).1 ∧
  (∀ e ∈ (go a [InMsg.offer (Offer.file dn n)]).1, fsWrite e = false)

/-- The permission gate on a file offer when consent is denied: auto-accept
grants immediately, a non-affirmative answer rejects with the
responder-error "transfer rejected" (sent to the peer), and at that point
no transit connection was made and no destination file exists. -/
def ConsentGate (a : Args) (fn : String) (n : Nat) : Prop :=
  (∀ b : Args, b.accept_file = true → ask_permission b = ([], Except.ok ())) ∧
  ask_permission a = ([Event.note ("transfer rejected")],
      Except.error (PErr.respond ("transfer rejected"))) ∧
  (go a [InMsg.offer (Offer.file fn n)]).2 =
    SessionResult.transferError ("transfer rejected") ∧
  Event.sent (WMsg.errorMsg ("transfer rejected"))
    ∈ (go a [InMsg.offer (Offer.file fn n)]).1 ∧
  Event.transitConnect ∉ (go a [InMsg.offer (Offer.file fn n)]).1 ∧
  (∀ p, Event.openTmp p ∉ (go a [InMsg.offer (Offer.file fn n)]).1) ∧
  (∀ e ∈ (go a [InMsg.offer (Offer.file fn n)]).1,
     createsAt (resolvedDest a fn) e = false)

/-- The completion handshake on the success path of a file offer of size
`n` and a directory offer of archive size `n`: the single application
record is the 3-byte `ok\n`, sent after the rename (resp. extraction) and
immediately before the pipe close. -/
def CompletionRecord (a : Args) (fn dn : String) (n nf nb : Nat) : Prop :=
  (go a [InMsg.offer (Offer.file fn n)]).2 = SessionResult.success ∧
  (go a [InMsg.offer (Offer.file fn n)]).1.filter isRecord
    = [Event.sendRecord ("ok\n")] ∧
  String.length ("ok\n") = 3 ∧
  (∃ l1 l2, (go a [InMsg.offer (Offer.file fn n)]).1 =
     l1 ++ [Event.rename (resolvedDest a fn ++ ".tmp") (resolvedDest a fn)]
        ++ l2 ++ [Event.sendRecord ("ok\n"), Event.closePipe, Event.closeWormhole] ∧
     l1.filter isRecord = [] ∧ l2.filter isRecord = []) ∧
  (go a [InMsg.offer (Offer.dir ("zipfile/deflated") dn n nf nb)]).2
    = SessionResult.success ∧
  (go a [InMsg.offer (Offer.dir ("zipfile/deflated") dn n nf nb)]).1.filter isRecord
    = [Event.sendRecord ("ok\n")] ∧
  (∃ l1 l2, (go a [InMsg.offer (Offer.dir ("zipfile/deflated") dn n nf nb)]).1 =
     l1 ++ [Event.extract (resolvedDest a dn)]
        ++ l2 ++ [Event.sendRecord ("ok\n"), Event.closePipe, Event.closeWormhole] ∧
     l1.filter isRecord = [] ∧ l2.filter isRecord = [])

/-- Destination resolution with a caller-supplied override: the override
replaces the proposed name verbatim (no basename stripping), the resolved
destination is the join of the working directory with the override, and an
absolute override supersedes the working directory entirely. -/
def OverrideResolution (a : Args) (mode dn o : String) : Prop :=
  decide_destname a mode dn =
    (if a.fsExists (pathJoin a.cwd o) then
       ([Event.note ("Error: refusing to overwrite existing " ++ mode ++ " " ++ o)],
        Except.error (mode ++ " already exists"))
     else ([], Except.ok (pathJoin a.cwd o))) ∧
  resolvedDest a dn = pathJoin a.cwd o ∧
  (startswith o ("/") = true → pathJoin a.cwd o = o)

/-- A concrete configuration for the witness theorems: no override,
auto-accept, empty filesystem, 3 bytes received on the bulk channel. -/
def argsW : Args :=
  { output_file := none, cwd := "/home/u", accept_file := true, answer := "",
    fsExists := fun _ => false, received := 3 }

/-- `argsW` against a filesystem where every path already exists. -/
def argsE : Args :=
  { argsW with fsExists := fun _ => true }

/-- `argsW` without auto-accept and with a negative prompt answer. -/
def argsN : Args :=
  { argsW with accept_file := false, answer := "no" }

/-- `argsW` with an absolute `--output-file` override. -/
def argsO : Args :=
  { argsW with output_file := some ("/abs/out") }

/-! ### Characterization lemmas -/

theorem seqE_ok {α β : Type} (evs : List Event) (v : α) (f : α → Step β) :
    seqE (evs, Except.ok v) f = (evs ++ (f v).1, (f v).2) := rfl

theorem seqE_error {α β : Type} (evs : List Event) (e : PErr) (f : α → Step β) :
    seqE (evs, Except.error e) f = (evs, Except.error e) := rfl

theorem respondE_ok {α : Type} (evs : List Event) (v : α) :
    respondE (evs, Except.ok v) = (evs, Except.ok v) := rfl

theorem respondE_error {α : Type} (evs : List Event) (r : String) :
    @respondE α (evs, Except.error r) = (evs, Except.error (PErr.respond r)) := rfl

theorem decide_destname_eq (a : Args) (mode destname : String) :
    decide_destname a mode destname =
      if a.fsExists (resolvedDest a destname) then
        ([Event.note ("Error: refusing to overwrite existing " ++ mode ++ " "
            ++ destChoice a destname)],
         Except.error (mode ++ " already exists"))
      else
        ([], Except.ok (resolvedDest a destname)) := by
  cases h : a.output_file <;>
    simp [decide_destname, destChoice, resolvedDest, h]

theorem ask_permission_eq (a : Args) :
    ask_permission a =
      if consentOK a then ([], Except.ok ())
      else ([Event.note ("transfer rejected")],
            Except.error (PErr.respond ("transfer rejected"))) := by
  by_cases h1 : a.accept_file <;>
    by_cases h2 : startswith (lower a.answer) ("y") <;>
      simp [ask_permission, consentOK, h1, h2]

theorem handle_file_eq (a : Args) (fn : String) (n : Nat) :
    handle_file a fn n =
      if a.fsExists (resolvedDest a fn) then
        ([Event.note ("Error: refusing to overwrite existing file "
            ++ destChoice a fn)],
         Except.error (PErr.respond ("file already exists")))
      else if consentOK a then
        ([Event.note ("Receiving file (" ++ toString n ++ " bytes) into: "
            ++ basename (resolvedDest a fn)),
          Event.openTmp (resolvedDest a fn ++ ".tmp")],
         Except.ok (resolvedDest a fn ++ ".tmp", resolvedDest a fn, n))
      else
        ([Event.note ("Receiving file (" ++ toString n ++ " bytes) into: "
            ++ basename (resolvedDest a fn)),
          Event.note ("transfer rejected")],
         Except.error (PErr.respond ("transfer rejected"))) := by
  by_cases h1 : a.fsExists (resolvedDest a fn) <;>
    by_cases h2 : consentOK a <;>
      simp [handle_file, decide_destname_eq, ask_permission_eq, h1, h2,
        seqE_ok, seqE_error, respondE_ok, respondE_error]

theorem handle_directory_eq (a : Args) (mode dirname : String)
    (zipsize numfiles numbytes : Nat) :
    handle_directory a mode dirname zipsize numfiles numbytes =
      if mode ≠ "zipfile/deflated" then
        ([Event.note ("Error: unknown directory-transfer mode " ++ mode)],
         Except.error (PErr.respond ("unknown mode")))
      else if a.fsExists (resolvedDest a dirname) then
        ([Event.note ("Error: refusing to overwrite existing directory "
            ++ destChoice a dirname)],
         Except.error (PErr.respond ("directory already exists")))
      else if consentOK a then
        ([Event.note ("Receiving directory (" ++ toString zipsize ++ " bytes) into: "
            ++ basename (resolvedDest a dirname) ++ "/"),
          Event.note (toString numfiles ++ " files, " ++ toString numbytes
            ++ " bytes (uncompressed)"),
          Event.openSpool],
         Except.ok (resolvedDest a dirname, zipsize))
      else
        ([Event.note ("Receiving directory (" ++ toString zipsize ++ " bytes) into: "
            ++ basename (resolvedDest a dirname) ++ "/"),
          Event.note (toString numfiles ++ " files, " ++ toString numbytes
            ++ " bytes (uncompressed)"),
          Event.note ("transfer rejected")],
         Except.error (PErr.respond ("transfer rejected"))) := by
  by_cases h0 : mode = "zipfile/deflated"
  · by_cases h1 : a.fsExists (resolvedDest a dirname) <;>
      by_cases h2 : consentOK a <;>
        simp [handle_directory, decide_destname_eq, ask_permission_eq, h0, h1, h2,
          seqE_ok, seqE_error, respondE_ok, respondE_error]
  · simp [handle_directory, h0]

theorem transfer_data_short (a : Args) (f : FTarget) (n : Nat)
    (h : a.received < n) :
    transfer_data a f n =
      ([Event.note ("Receiving.."), Event.wrote f a.received,
        Event.note ("Connection dropped before full file received"),
        Event.note ("got " ++ toString a.received ++ " bytes, wanted "
          ++ toString n)],
       Except.error (PErr.transfer ("Connection dropped before full file received"))) := by
  simp [transfer_data, h]

theorem transfer_data_exact (a : Args) (f : FTarget) (n : Nat)
    (h : a.received = n) :
    transfer_data a f n =
      ([Event.note ("Receiving.."), Event.wrote f a.received],
       Except.ok ()) := by
  simp [transfer_data, h]

theorem transfer_data_over (a : Args) (f : FTarget) (n : Nat)
    (h : n < a.received) :
    transfer_data a f n =
      ([Event.note ("Receiving.."), Event.wrote f a.received],
       Except.error PErr.fatal) := by
  have h1 : ¬ a.received < n := by omega
  have h2 : ¬ a.received = n := by omega
  simp [transfer_data, h1, h2]

/-! ### Whole-session scenario lemmas: one file offer -/

theorem go_file_exists (a : Args) (fn : String) (n : Nat)
    (h1 : a.fsExists (resolvedDest a fn) = true) :
    go a [InMsg.offer (Offer.file fn n)] =
      ([Event.note ("Error: refusing to overwrite existing file " ++ destChoice a fn),
        Event.sent (WMsg.errorMsg ("file already exists")),
        Event.closeWormhole],
       SessionResult.transferError ("file already exists")) := by
  simp [go, goLoop, parse_offer, handle_file_eq, h1, seqE_ok, seqE_error]

theorem go_file_refused (a : Args) (fn : String) (n : Nat)
    (h1 : a.fsExists (resolvedDest a fn) = false) (h2 : consentOK a = false) :
    go a [InMsg.offer (Offer.file fn n)] =
      ([Event.note ("Receiving file (" ++ toString n ++ " bytes) into: "
          ++ basename (resolvedDest a fn)),
        Event.note ("transfer rejected"),
        Event.sent (WMsg.errorMsg ("transfer rejected")),
        Event.closeWormhole],
       SessionResult.transferError ("transfer rejected")) := by
  simp [go, goLoop, parse_offer, handle_file_eq, h1, h2, seqE_ok, seqE_error]

theorem go_file_short (a : Args) (fn : String) (n : Nat)
    (h1 : a.fsExists (resolvedDest a fn) = false) (h2 : consentOK a = true)
    (h3 : a.received < n) :
    go a [InMsg.offer (Offer.file fn n)] =
      ([Event.note ("Receiving file (" ++ toString n ++ " bytes) into: "
          ++ basename (resolvedDest a fn)),
        Event.openTmp (resolvedDest a fn ++ ".tmp"),
        Event.sent WMsg.answerFileAck,
        Event.transitConnect,
        Event.note ("Receiving.."),
        Event.wrote (FTarget.tmpFile (resolvedDest a fn ++ ".tmp")) a.received,
        Event.note ("Connection dropped before full file received"),
        Event.note ("got " ++ toString a.received ++ " bytes, wanted " ++ toString n),
        Event.closeWormhole],
       SessionResult.transferError ("Connection dropped before full file received")) := by
  simp [go, goLoop, parse_offer, handle_file_eq, h1, h2,
    transfer_data_short a _ n h3, seqE_ok, seqE_error]

theorem go_file_success (a : Args) (fn : String) (n : Nat)
    (h1 : a.fsExists (resolvedDest a fn) = false) (h2 : consentOK a = true)
    (h3 : a.received = n) :
    go a [InMsg.offer (Offer.file fn n)] =
      ([Event.note ("Receiving file (" ++ toString n ++ " bytes) into: "
          ++ basename (resolvedDest a fn)),
        Event.openTmp (resolvedDest a fn ++ ".tmp"),
        Event.sent WMsg.answerFileAck,
        Event.transitConnect,
        Event.note ("Receiving.."),
        Event.wrote (FTarget.tmpFile (resolvedDest a fn ++ ".tmp")) n,
        Event.rename (resolvedDest a fn ++ ".tmp") (resolvedDest a fn),
        Event.note ("Received file written to " ++ basename (resolvedDest a fn)),
        Event.sendRecord ("ok\n"),
        Event.closePipe,
        Event.closeWormhole],
       SessionResult.success) := by
  simp [go, goLoop, parse_offer, handle_file_eq, h1, h2,
    transfer_data_exact a _ n h3, h3, write_file, close_transit, seqE_ok, seqE_error]

theorem go_file_over (a : Args) (fn : String) (n : Nat)
    (h1 : a.fsExists (resolvedDest a fn) = false) (h2 : consentOK a = true)
    (h3 : n < a.received) :
    go a [InMsg.offer (Offer.file fn n)] =
      ([Event.note ("Receiving file (" ++ toString n ++ " bytes) into: "
          ++ basename (resolvedDest a fn)),
        Event.openTmp (resolvedDest a fn ++ ".tmp"),
        Event.sent WMsg.answerFileAck,
        Event.transitConnect,
        Event.note ("Receiving.."),
        Event.wrote (FTarget.tmpFile (resolvedDest a fn ++ ".tmp")) a.received,
        Event.closeWormhole],
       SessionResult.fatal) := by
  simp [go, goLoop, parse_offer, handle_file_eq, h1, h2,
    transfer_data_over a _ n h3, seqE_ok, seqE_error]

/-! ### Whole-session scenario lemmas: one directory offer -/

theorem go_dir_badmode (a : Args) (mode dn : String) (zs nf nb : Nat)
    (h0 : mode ≠ "zipfile/deflated") :
    go a [InMsg.offer (Offer.dir mode dn zs nf nb)] =
      ([Event.note ("Error: unknown directory-transfer mode " ++ mode),
        Event.sent (WMsg.errorMsg ("unknown mode")),
        Event.closeWormhole],
       SessionResult.transferError ("unknown mode")) := by
  simp [go, goLoop, parse_offer, handle_directory_eq, h0, seqE_ok, seqE_error]

theorem go_dir_exists (a : Args) (dn : String) (zs nf nb : Nat)
    (h1 : a.fsExists (resolvedDest a dn) = true) :
    go a [InMsg.offer (Offer.dir ("zipfile/deflated") dn zs nf nb)] =
      ([Event.note ("Error: refusing to overwrite existing directory "
          ++ destChoice a dn),
        Event.sent (WMsg.errorMsg ("directory already exists")),
        Event.closeWormhole],
       SessionResult.transferError ("directory already exists")) := by
  simp [go, goLoop, parse_offer, handle_directory_eq, h1, seqE_ok, seqE_error]

theorem go_dir_refused (a : Args) (dn : String) (zs nf nb : Nat)
    (h1 : a.fsExists (resolvedDest a dn) = false) (h2 : consentOK a = false) :
    go a [InMsg.offer (Offer.dir ("zipfile/deflated") dn zs nf nb)] =
      ([Event.note ("Receiving directory (" ++ toString zs ++ " bytes) into: "
          ++ basename (resolvedDest a dn) ++ "/"),
        Event.note (toString nf ++ " files, " ++ toString nb ++ " bytes (uncompressed)"),
        Event.note ("transfer rejected"),
        Event.sent (WMsg.errorMsg ("transfer rejected")),
        Event.closeWormhole],
       SessionResult.transferError ("transfer rejected")) := by
  simp [go, goLoop, parse_offer, handle_directory_eq, h1, h2, seqE_ok, seqE_error]

theorem go_dir_short (a : Args) (dn : String) (zs nf nb : Nat)
    (h1 : a.fsExists (resolvedDest a dn) = false) (h2 : consentOK a = true)
    (h3 : a.received < zs) :
    go a [InMsg.offer (Offer.dir ("zipfile/deflated") dn zs nf nb)] =
      ([Event.note ("Receiving directory (" ++ toString zs ++ " bytes) into: "
          ++ basename (resolvedDest a dn) ++ "/"),
        Event.note (toString nf ++ " files, " ++ toString nb ++ " bytes (uncompressed)"),
        Event.openSpool,
        Event.sent WMsg.answerFileAck,
        Event.transitConnect,
        Event.note ("Receiving.."),
        Event.wrote FTarget.spool a.received,
        Event.note ("Connection dropped before full file received"),
        Event.note ("got " ++ toString a.received ++ " bytes, wanted " ++ toString zs),
        Event.closeWormhole],
       SessionResult.transferError ("Connection dropped before full file received")) := by
  simp [go, goLoop, parse_offer, handle_directory_eq, h1, h2,
    transfer_data_short a _ zs h3, seqE_ok, seqE_error]

theorem go_dir_success (a : Args) (dn : String) (zs nf nb : Nat)
    (h1 : a.fsExists (resolvedDest a dn) = false) (h2 : consentOK a = true)
    (h3 : a.received = zs) :
    go a [InMsg.offer (Offer.dir ("zipfile/deflated") dn zs nf nb)] =
      ([Event.note ("Receiving directory (" ++ toString zs ++ " bytes) into: "
          ++ basename (resolvedDest a dn) ++ "/"),
        Event.note (toString nf ++ " files, " ++ toString nb ++ " bytes (uncompressed)"),
        Event.openSpool,
        Event.sent WMsg.answerFileAck,
        Event.transitConnect,
        Event.note ("Receiving.."),
        Event.wrote FTarget.spool zs,
        Event.note ("Unpacking zipfile.."),
        Event.extract (resolvedDest a dn),
        Event.note ("Received files written to " ++ basename (resolvedDest a dn) ++ "/"),
        Event.sendRecord ("ok\n"),
        Event.closePipe,
        Event.closeWormhole],
       SessionResult.success) := by
  simp [go, goLoop, parse_offer, handle_directory_eq, h1, h2,
    transfer_data_exact a _ zs h3, h3, write_directory, close_transit,
    seqE_ok, seqE_error]

theorem go_dir_over (a : Args) (dn : String) (zs nf nb : Nat)
    (h1 : a.fsExists (resolvedDest a dn) = false) (h2 : consentOK a = true)
    (h3 : zs < a.received) :
    go a [InMsg.offer (Offer.dir ("zipfile/deflated") dn zs nf nb)] =
      ([Event.note ("Receiving directory (" ++ toString zs ++ " bytes) into: "
          ++ basename (resolvedDest a dn) ++ "/"),
        Event.note (toString nf ++ " files, " ++ toString nb ++ " bytes (uncompressed)"),
        Event.openSpool,
        Event.sent WMsg.answerFileAck,
        Event.transitConnect,
        Event.note ("Receiving.."),
        Event.wrote FTarget.spool a.received,
        Event.closeWormhole],
       SessionResult.fatal) := by
  simp [go, goLoop, parse_offer, handle_directory_eq, h1, h2,
    transfer_data_over a _ zs h3, seqE_ok, seqE_error]

/-! ### Trace-support lemmas -/

theorem takeWhile_stop {p : Char → Bool} (s : Char) (hs : p s = false) :
    ∀ (l r : List Char), (l ++ s :: r).takeWhile p = l.takeWhile p := by
  intro l r
  induction l with
  | nil => simp [List.takeWhile, hs]
  | cons c t ih =>
    by_cases hc : p c <;> simp [List.takeWhile, hc, ih]

/-- `basename` discards every directory component the proposed name
carries: prefixing any directory part leaves the basename unchanged. -/
theorem basename_append (x y : String) :
    basename (x ++ "/" ++ y) = basename y := by
  have hd : (x ++ "/" ++ y).data = x.data ++ '/' :: y.data := by
    simp [String.data_append]
  have hrev : (x.data ++ '/' :: y.data).reverse
      = y.data.reverse ++ '/' :: x.data.reverse := by
    simp
  have key : (x.data ++ '/' :: y.data).reverse.takeWhile (fun c => decide (c ≠ '/'))
      = y.data.reverse.takeWhile (fun c => decide (c ≠ '/')) := by
    rw [hrev, takeWhile_stop '/' (by simp) y.data.reverse x.data.reverse]
  simp only [basename, lastComponent, hd, key]

/-- Appending the temporary suffix changes the path. -/
theorem tmp_ne (s : String) : s ++ ".tmp" ≠ s := by
  intro h
  have hlen := congrArg String.length h
  rw [String.length_append] at hlen
  have h4 : String.length (".tmp") = 4 := rfl
  omega

theorem respondE_fst {α : Type} (x : List Event × Except String α) :
    (respondE x).1 = x.1 := by
  obtain ⟨evs, r⟩ := x
  cases r <;> rfl

theorem seqE_not_mem {α β : Type} (ev : Event) (x : Step α) (f : α → Step β)
    (hx : ev ∉ x.1) (hf : ∀ v, ev ∉ (f v).1) :
    ev ∉ (seqE x f).1 := by
  obtain ⟨evs, r⟩ := x
  cases r with
  | error e => simpa [seqE] using hx
  | ok v =>
    simp only [seqE, List.mem_append]
    rintro (h | h)
    · exact hx h
    · exact hf v h

theorem handle_file_no_close (a : Args) (fn : String) (n : Nat) :
    Event.closeWormhole ∉ (handle_file a fn n).1 := by
  rw [handle_file_eq]
  by_cases h1 : a.fsExists (resolvedDest a fn) <;>
    by_cases h2 : consentOK a <;> simp [h1, h2]

theorem handle_directory_no_close (a : Args) (mode dn : String) (zs nf nb : Nat) :
    Event.closeWormhole ∉ (handle_directory a mode dn zs nf nb).1 := by
  rw [handle_directory_eq]
  by_cases h0 : mode = "zipfile/deflated" <;>
    by_cases h1 : a.fsExists (resolvedDest a dn) <;>
      by_cases h2 : consentOK a <;> simp [h0, h1, h2]

theorem transfer_data_no_close (a : Args) (f : FTarget) (n : Nat) :
    Event.closeWormhole ∉ (transfer_data a f n).1 := by
  rcases Nat.lt_trichotomy a.received n with h | h | h
  · rw [transfer_data_short a f n h]; simp
  · rw [transfer_data_exact a f n h]; simp
  · rw [transfer_data_over a f n h]; simp

theorem parse_offer_no_close (a : Args) (o : Offer) :
    Event.closeWormhole ∉ (parse_offer a o).1 := by
  cases o with
  | text body => simp [parse_offer]
  | unknown => simp [parse_offer]
  | file fn n =>
    simp only [parse_offer]
    refine seqE_not_mem _ _ _ (handle_file_no_close a fn n) fun fd => ?_
    refine seqE_not_mem _ _ _ (by simp) fun _ => ?_
    refine seqE_not_mem _ _ _ (transfer_data_no_close a _ _) fun _ => ?_
    simp [write_file, close_transit]
  | dir mode dn zs nf nb =>
    simp only [parse_offer]
    refine seqE_not_mem _ _ _ (handle_directory_no_close a mode dn zs nf nb) fun dd => ?_
    refine seqE_not_mem _ _ _ (by simp) fun _ => ?_
    refine seqE_not_mem _ _ _ (transfer_data_no_close a _ _) fun _ => ?_
    simp [write_directory, close_transit]

theorem goLoop_no_close (a : Args) (msgs : List InMsg) :
    ∀ (w d h : Bool), Event.closeWormhole ∉ (goLoop a msgs w d h).1 := by
  induction msgs with
  | nil => intro w d h; simp [goLoop]
  | cons m rest ih =>
    intro w d h
    cases m with
    | transit =>
      cases h with
      | true => simpa [goLoop] using ih w d true
      | false =>
        simp only [goLoop, Bool.false_eq_true, if_false, List.mem_cons]
        rintro (hc | hc)
        · exact Event.noConfusion hc
        · exact ih w d true hc
    | offer o =>
      have hpo := parse_offer_no_close a o
      rcases he : parse_offer a o with ⟨tr, r⟩
      rw [he] at hpo
      cases w with
      | false => simp [goLoop]
      | true =>
        cases r with
        | ok v => simpa [goLoop, he] using hpo
        | error e =>
          cases e with
          | respond s =>
            simp only [goLoop, he, if_true, List.mem_append, List.mem_singleton]
            rintro (hc | hc)
            · exact hpo hc
            · exact Event.noConfusion hc
          | transfer s => simpa [goLoop, he] using hpo
          | fatal => simpa [goLoop, he] using hpo
    | errorIn r => simp [goLoop]
    | other => simp [goLoop]

/-! ### Claim theorems -/

/-- C3: every responder-error raised while processing an offer causes the
session to first send `{"error": reason}` to the peer over the wormhole
channel and then fail with the same reason as a `TransferError`; the
responder-error marker itself is consumed inside the session (the session
result type has no responder variant). -/
theorem claim_C3 (a : Args) (o : Offer) (tr : List Event) (s : String)
    (h : parse_offer a o = (tr, Except.error (PErr.respond s))) :
    go a [InMsg.offer o] =
      (tr ++ [Event.sent (WMsg.errorMsg s), Event.closeWormhole],
       SessionResult.transferError s) := by
  simp [go, goLoop, h]

theorem claim_C3_witness :
    go argsW [InMsg.offer Offer.unknown] =
      ([Event.note ("I dont know what they are offering"),
        Event.note ("Offer details: ...")]
        ++ [Event.sent (WMsg.errorMsg ("unknown offer type")), Event.closeWormhole],
       SessionResult.transferError ("unknown offer type")) :=
  claim_C3 argsW Offer.unknown
    [Event.note ("I dont know what they are offering"),
     Event.note ("Offer details: ...")]
    ("unknown offer type") rfl

/-- C4: when the wormhole channel is closed while the negotiation loop is
waiting for a message, the session ends in success if a transfer has
already completed (`done`), and otherwise fails with "unexpected close". -/
theorem claim_C4 (a : Args) (want_offer done hasTransit : Bool) :
    goLoop a [] want_offer done hasTransit =
      ([], if done then SessionResult.success
           else SessionResult.transferError ("unexpected close")) := rfl

/-- C5: on every exit path of the session the wormhole-channel close is
performed exactly once, as the last action, and it does not replace the
pipeline's outcome. -/
theorem claim_C5 (a : Args) (msgs : List InMsg) :
    (go a msgs).1.count Event.closeWormhole = 1 ∧
    (go a msgs).1.getLast? = some Event.closeWormhole ∧
    (go a msgs).2 = (goLoop a msgs true false false).2 := by
  refine ⟨?_, ?_, rfl⟩
  · have h0 : (goLoop a msgs true false false).1.count Event.closeWormhole = 0 :=
      List.count_eq_zero.mpr (goLoop_no_close a msgs true false false)
    simp [go, List.count_append, h0]
  · simp [go, List.getLast?_concat]

/-- C6: every archive entry is confined under the destination root: the
extraction target extends the root, the sanitized entry retains no empty,
current-directory or parent-directory component, and in particular a
`../../evil` entry lands at `root/evil`. -/
theorem claim_C6 (root entry : List String) :
    root <+: extractTarget root entry ∧
    (∀ c ∈ sanitizeEntry entry, c ≠ "" ∧ c ≠ "." ∧ c ≠ "..") ∧
    extractTarget root ([("..") , (".."), ("evil")]) = root ++ [("evil")] := by
  refine ⟨List.prefix_append root _, ?_, ?_⟩
  · intro c hc
    simp [sanitizeEntry, List.mem_filter] at hc
    exact ⟨hc.2.1.1, hc.2.1.2, hc.2.2⟩
  · rfl

/-- C10: with a caller-supplied `--output-file` override, destination
resolution uses the override verbatim in place of the basename-stripped
proposed name, joining it under the working directory; an absolute
override supersedes the working directory entirely. -/
theorem claim_C10 (a : Args) (mode dn o : String)
    (hover : a.output_file = some o) :
    OverrideResolution a mode dn o := by
  have hdc : destChoice a dn = o := by simp [destChoice, hover]
  refine ⟨?_, ?_, ?_⟩
  · rw [decide_destname_eq]
    simp [resolvedDest, hdc]
  · simp [resolvedDest, hdc]
  · intro hs
    simp [pathJoin, hs]

theorem claim_C10_witness :
    argsO.output_file = some ("/abs/out") ∧
    OverrideResolution argsO ("file") ("ignored/name") ("/abs/out") :=
  ⟨rfl, claim_C10 argsO ("file") ("ignored/name") ("/abs/out") rfl⟩

/-- C7: without an override, destination resolution strips the proposed
name to its final path component, joins it under the working directory,
and — when the resolved path already exists — fails with the
"already exists" responder-error, performing no filesystem write. -/
theorem claim_C7 (a : Args) (mode dn : String) (n : Nat)
    (hover : a.output_file = none)
    (hex : a.fsExists (pathJoin a.cwd (basename dn)) = true) :
    NoOverwriteResolution a mode dn n := by
  have hres : resolvedDest a dn = pathJoin a.cwd (basename dn) := by
    simp [resolvedDest, destChoice, hover]
  have hex' : a.fsExists (resolvedDest a dn) = true := by rw [hres]; exact hex
  have hdc : destChoice a dn = basename dn := by simp [destChoice, hover]
  refine ⟨basename_append, ?_, ?_, ?_, ?_⟩
  · rw [decide_destname_eq]
    simp [hex', hdc]
  · rw [go_file_exists a dn n hex']
  · rw [go_file_exists a dn n hex']
    simp
  · rw [go_file_exists a dn n hex']
    simp [List.forall_mem_cons, fsWrite]

theorem claim_C7_witness :
    argsE.fsExists (pathJoin argsE.cwd (basename ("sub/dir/x"))) = true ∧
    NoOverwriteResolution argsE ("file") ("sub/dir/x") 3 :=
  ⟨rfl, claim_C7 argsE ("file") ("sub/dir/x") 3 rfl rfl⟩

/-- C8: the permission gate grants immediately under auto-accept;
otherwise a non-affirmative answer raises the responder-error
"transfer rejected", which the session reports to the peer and converts
to a `TransferError`, before any transit connection and before any
destination file exists. -/
theorem claim_C8 (a : Args) (fn : String) (n : Nat)
    (hacc : a.accept_file = false)
    (hans : startswith (lower a.answer) ("y") = false)
    (hex : a.fsExists (resolvedDest a fn) = false) :
    ConsentGate a fn n := by
  have hcn : consentOK a = false := by simp [consentOK, hacc, hans]
  refine ⟨?_, ?_, ?_, ?_, ?_, ?_, ?_⟩
  · intro b hb
    simp [ask_permission, hb]
  · rw [ask_permission_eq, hcn]
    simp
  · rw [go_file_refused a fn n hex hcn]
  · rw [go_file_refused a fn n hex hcn]
    simp
  · rw [go_file_refused a fn n hex hcn]
    simp
  · intro p
    rw [go_file_refused a fn n hex hcn]
    simp
  · rw [go_file_refused a fn n hex hcn]
    simp [List.forall_mem_cons, createsAt]

theorem claim_C8_witness :
    argsN.accept_file = false ∧ ConsentGate argsN ("a.txt") 3 :=
  ⟨rfl, claim_C8 argsN ("a.txt") 3 rfl (by decide) rfl⟩

/-- C9: on the success path of a file or directory transfer, exactly one
application record is sent over the bulk pipe — the 3-byte `ok\n` — after
the rename (resp. extraction) is complete and immediately before the pipe
close, which is the session's last bulk-channel action. -/
theorem claim_C9 (a : Args) (fn dn : String) (n nf nb : Nat)
    (hf : a.fsExists (resolvedDest a fn) = false)
    (hd : a.fsExists (resolvedDest a dn) = false)
    (hc : consentOK a = true)
    (hr : a.received = n) :
    CompletionRecord a fn dn n nf nb := by
  refine ⟨?_, ?_, rfl, ?_, ?_, ?_, ?_⟩
  · rw [go_file_success a fn n hf hc hr]
  · rw [go_file_success a fn n hf hc hr]
    simp [isRecord]
  · rw [go_file_success a fn n hf hc hr]
    refine ⟨[Event.note ("Receiving file (" ++ toString n ++ " bytes) into: "
        ++ basename (resolvedDest a fn)),
      Event.openTmp (resolvedDest a fn ++ ".tmp"),
      Event.sent WMsg.answerFileAck,
      Event.transitConnect,
      Event.note ("Receiving.."),
      Event.wrote (FTarget.tmpFile (resolvedDest a fn ++ ".tmp")) n],
      [Event.note ("Received file written to " ++ basename (resolvedDest a fn))],
      by simp, by simp [isRecord], by simp [isRecord]⟩
  · rw [go_dir_success a dn n nf nb hd hc hr]
  · rw [go_dir_success a dn n nf nb hd hc hr]
    simp [isRecord]
  · rw [go_dir_success a dn n nf nb hd hc hr]
    refine ⟨[Event.note ("Receiving directory (" ++ toString n ++ " bytes) into: "
        ++ basename (resolvedDest a dn) ++ "/"),
      Event.note (toString nf ++ " files, " ++ toString nb ++ " bytes (uncompressed)"),
      Event.openSpool,
      Event.sent WMsg.answerFileAck,
      Event.transitConnect,
      Event.note ("Receiving.."),
      Event.wrote FTarget.spool n,
      Event.note ("Unpacking zipfile..")],
      [Event.note ("Received files written to " ++ basename (resolvedDest a dn) ++ "/")],
      by simp, by simp [isRecord], by simp [isRecord]⟩

theorem claim_C9_witness :
    argsW.received = 3 ∧ CompletionRecord argsW ("a.txt") ("d") 3 2 10 :=
  ⟨rfl, claim_C9 argsW ("a.txt") ("d") 3 2 10 rfl rfl rfl rfl⟩

/-- C1: the byte-count law — with the destination free and consent given,
a file or directory session succeeds exactly when the bulk write returned
the advertised size; a short count fails with "Connection dropped before
full file received", reports both counts, and performs no rename and no
extraction. -/
theorem claim_C1 (a : Args) (fn dn : String) (n zs nf nb : Nat)
    (hf : a.fsExists (resolvedDest a fn) = false)
    (hd : a.fsExists (resolvedDest a dn) = false)
    (hc : consentOK a = true) :
    ByteCountLaw a fn dn n zs nf nb := by
  refine ⟨?_, ?_, ?_, ?_⟩
  · rcases Nat.lt_trichotomy a.received n with h3 | h3 | h3
    · rw [go_file_short a fn n hf hc h3]
      simp
      omega
    · rw [go_file_success a fn n hf hc h3]
      simp [h3]
    · rw [go_file_over a fn n hf hc h3]
      simp
      omega
  · intro h3
    rw [go_file_short a fn n hf hc h3]
    refine ⟨rfl, by simp, ?_, ?_⟩
    · intro src dst
      simp
    · intro d
      simp
  · rcases Nat.lt_trichotomy a.received zs with h3 | h3 | h3
    · rw [go_dir_short a dn zs nf nb hd hc h3]
      simp
      omega
    · rw [go_dir_success a dn zs nf nb hd hc h3]
      simp [h3]
    · rw [go_dir_over a dn zs nf nb hd hc h3]
      simp
      omega
  · intro h3
    rw [go_dir_short a dn zs nf nb hd hc h3]
    refine ⟨rfl, by simp, ?_, ?_⟩
    · intro src dst
      simp
    · intro d
      simp

theorem claim_C1_witness :
    consentOK argsW = true ∧ ByteCountLaw argsW ("a.txt") ("d") 5 7 2 10 :=
  ⟨rfl, claim_C1 argsW ("a.txt") ("d") 5 7 2 10 rfl rfl rfl⟩

theorem file_materialization (a : Args) (fn : String) (n : Nat) :
    FileMaterialization a fn n := by
  by_cases h1 : a.fsExists (resolvedDest a fn) = true
  · rw [FileMaterialization, go_file_exists a fn n h1]
    refine ⟨?_, ?_, by simp, ?_, ?_⟩
    · intro p hp
      simp at hp
    · intro t m ht
      simp at ht
    · intro _
      simp [List.forall_mem_cons, createsAt]
    · intro _
      exact ⟨fun src dst => by simp, fun d => by simp⟩
  · have h1' : a.fsExists (resolvedDest a fn) = false := by
      simpa using h1
    by_cases h2 : consentOK a = true
    · rcases Nat.lt_trichotomy a.received n with h3 | h3 | h3
      · rw [FileMaterialization, go_file_short a fn n h1' h2 h3]
        refine ⟨?_, ?_, by simp, ?_, ?_⟩
        · intro p hp
          simpa using hp
        · intro t m ht
          simp at ht
          exact ht.1
        · intro _
          simp [List.forall_mem_cons, createsAt, tmp_ne]
        · intro _
          exact ⟨fun src dst => by simp, fun d => by simp⟩
      · rw [FileMaterialization, go_file_success a fn n h1' h2 h3]
        refine ⟨?_, ?_, by simp, ?_, ?_⟩
        · intro p hp
          simpa using hp
        · intro t m ht
          simp at ht
          exact ht.1
        · intro hne
          exact absurd rfl hne
        · intro hne
          exact absurd rfl hne
      · rw [FileMaterialization, go_file_over a fn n h1' h2 h3]
        refine ⟨?_, ?_, by simp, ?_, ?_⟩
        · intro p hp
          simpa using hp
        · intro t m ht
          simp at ht
          exact ht.1
        · intro _
          simp [List.forall_mem_cons, createsAt, tmp_ne]
        · intro _
          exact ⟨fun src dst => by simp, fun d => by simp⟩
    · have h2' : consentOK a = false := by
        simpa using h2
      rw [FileMaterialization, go_file_refused a fn n h1' h2']
      refine ⟨?_, ?_, by simp, ?_, ?_⟩
      · intro p hp
        simp at hp
      · intro t m ht
        simp at ht
      · intro _
        simp [List.forall_mem_cons, createsAt]
      · intro _
        exact ⟨fun src dst => by simp, fun d => by simp⟩

theorem dir_materialization (a : Args) (dm dn : String) (zs nf nb : Nat) :
    DirMaterialization a dm dn zs nf nb := by
  by_cases hm : dm = "zipfile/deflated"
  · subst hm
    by_cases h1 : a.fsExists (resolvedDest a dn) = true
    · rw [DirMaterialization, go_dir_exists a dn zs nf nb h1]
      refine ⟨by simp, ?_, ?_⟩
      · intro _
        simp [List.forall_mem_cons, createsAt]
      · intro _
        exact ⟨fun src dst => by simp, fun d => by simp⟩
    · have h1' : a.fsExists (resolvedDest a dn) = false := by
        simpa using h1
      by_cases h2 : consentOK a = true
      · rcases Nat.lt_trichotomy a.received zs with h3 | h3 | h3
        · rw [DirMaterialization, go_dir_short a dn zs nf nb h1' h2 h3]
          refine ⟨by simp, ?_, ?_⟩
          · intro _
            simp [List.forall_mem_cons, createsAt]
          · intro _
            exact ⟨fun src dst => by simp, fun d => by simp⟩
        · rw [DirMaterialization, go_dir_success a dn zs nf nb h1' h2 h3]
          refine ⟨by simp, ?_, ?_⟩
          · intro hne
            exact absurd rfl hne
          · intro hne
            exact absurd rfl hne
        · rw [DirMaterialization, go_dir_over a dn zs nf nb h1' h2 h3]
          refine ⟨by simp, ?_, ?_⟩
          · intro _
            simp [List.forall_mem_cons, createsAt]
          · intro _
            exact ⟨fun src dst => by simp, fun d => by simp⟩
      · have h2' : consentOK a = false := by
          simpa using h2
        rw [DirMaterialization, go_dir_refused a dn zs nf nb h1' h2']
        refine ⟨by simp, ?_, ?_⟩
        · intro _
          simp [List.forall_mem_cons, createsAt]
        · intro _
          exact ⟨fun src dst => by simp, fun d => by simp⟩
  · rw [DirMaterialization, go_dir_badmode a dm dn zs nf nb hm]
    refine ⟨by simp, ?_, ?_⟩
    · intro _
      simp [List.forall_mem_cons, createsAt]
    · intro _
      exact ⟨fun src dst => by simp, fun d => by simp⟩

/-- C2: safe materialization — all transfer writes of a file offer target
the temporary sibling of the resolved destination, the atomic rename onto
the final name happens exactly on the success path, and on any failure
(file or directory case, any advertised mode) nothing creates the
destination path: no rename and no extraction occurs. -/
theorem claim_C2 (a : Args) (fn dm dn : String) (n zs nf nb : Nat) :
    FileMaterialization a fn n ∧ DirMaterialization a dm dn zs nf nb :=
  ⟨file_materialization a fn n, dir_materialization a dm dn zs nf nb⟩

end CmdReceive
